import Mathlib

/-!
Shallow embedding of the AirportAPI domain logic (app/models.py, app/views.py,
app/serializers.py): entity validators, derived computations and the
per-action serializer/queryset selection, together with theorems checking the
claims of the specification against them.

Machine integers of the source (Django IntegerField, Python int) are modelled
as Int; datetimes are modelled as Int timestamps (only their ordering is used
by the code); database rows are records in Lean structures and querysets are
lists of such records.
-/

/-- Embeds the columns of `Airplane` used by the validators and derived
computations: `rows`, `seats_in_row` (app/models.py). -/
structure Airplane where
  id : Nat
  rows : Int
  seats_in_row : Int
deriving Repr, DecidableEq

/-- Property `Airplane.total_seats`: `self.rows * self.seats_in_row`
(app/models.py lines 31-33). -/
def Airplane.total_seats (a : Airplane) : Int :=
  a.rows * a.seats_in_row

/-- A field-keyed validation error as raised by `Ticket.validate_ticket`:
`error_to_raise({ticket_attr_name: message})` becomes a (field, message)
pair. -/
structure FieldError where
  field : String
  message : String
deriving Repr, DecidableEq

/-- The f-string built in `Ticket.validate_ticket` (app/models.py lines
193-197). -/
def rangeErrorMessage (ticket_attr_name airplane_attr_name : String)
    (count_attrs : Int) : String :=
  s!"{ticket_attr_name} number must be in available range: (1, {airplane_attr_name}): (1, {count_attrs})"

/-- Embedding of `Ticket.validate_ticket(row, seat, airplane, error_to_raise)`
(app/models.py lines 183-198): the loop over the pairs (row, rows) and
(seat, seats_in_row) unrolled; the first attribute outside
`1 <= value <= count_attrs` raises the field-keyed error. -/
def validate_ticket (row seat : Int) (airplane : Airplane) :
    Except FieldError Unit :=
  if ¬ (1 ≤ row ∧ row ≤ airplane.rows) then
    .error ⟨"row", rangeErrorMessage "row" "rows" airplane.rows⟩
  else if ¬ (1 ≤ seat ∧ seat ≤ airplane.seats_in_row) then
    .error ⟨"seat", rangeErrorMessage "seat" "seats_in_row" airplane.seats_in_row⟩
  else
    .ok ()

/-- Embedding of `Ticket.save` (app/models.py lines 205-215): `full_clean()` runs
`Ticket.clean`, which calls `validate_ticket` on the airplane of the flight;
only then is the row persisted. Returns the persisted (row, seat) pair. -/
def ticketSave (row seat : Int) (airplane : Airplane) :
    Except FieldError (Int × Int) :=
  match validate_ticket row seat airplane with
  | .error e => .error e
  | .ok _ => .ok (row, seat)

/-- Embedding of `Flight.clean` (app/models.py lines 145-155): datetimes are modelled as
Int timestamps (only their ordering is used) and `timezone.now()` is passed
in as `now`; the three checks run in source order and the first failing one
raises. -/
def flightClean (now departure_time arrival_time : Int) : Except String Unit :=
  if departure_time < now then
    .error "Departure time cannot be in the past"
  else if arrival_time < departure_time then
    .error "Arrival time cannot be before departure time"
  else if arrival_time < now then
    .error "Arrival time cannot be in the past"
  else
    .ok ()

/-- Embedding of `Route.clean` (app/models.py lines 110-112): Django model equality on
`self.source == self.destination` compares primary keys, modelled as Nat
airport ids. -/
def routeClean (source destination : Nat) : Except String Unit :=
  if source = destination then
    .error "Source and destination cannot be the same"
  else
    .ok ()

/-- Embedding of `Route.objects.create(**route_data)` as called by
`FlightSerializer.create` (app/serializers.py line 262): `QuerySet.create`
calls `Model.save`, and `Route` overrides neither `save` nor anything that
would run `clean`/`full_clean`, so the (source, destination) row is inserted
unconditionally, with no validation. -/
def routeObjectsCreate (routes : List (Nat × Nat)) (source destination : Nat) :
    List (Nat × Nat) :=
  routes ++ [(source, destination)]

/-- Embedding of `Flight.objects.create(route=route, **validated_data)` as
called by `FlightSerializer.create` (app/serializers.py line 264):
`QuerySet.create` calls `Model.save`, and `Flight` overrides neither `save`
nor anything that would run `clean`/`full_clean`, so the
(departure_time, arrival_time) row is inserted unconditionally, with no
validation. -/
def flightObjectsCreate (flights : List (Int × Int))
    (departure_time arrival_time : Int) : List (Int × Int) :=
  flights ++ [(departure_time, arrival_time)]

/-- Embedding of `FlightSerializer.create` (app/serializers.py lines
259-267), the creation path of flights and their routes through the API:
`route = Route.objects.create(**route_data)` followed by
`flight = Flight.objects.create(route=route, **validated_data)` (the
`crew.set` call does not touch the route or flight stores). Neither step
invokes `Flight.clean` or `Route.clean`, so both inserts always succeed and
the updated (routes, flights) stores are returned. -/
def flightSerializerCreate (routes : List (Nat × Nat))
    (flights : List (Int × Int)) (source destination : Nat)
    (departure_time arrival_time : Int) :
    List (Nat × Nat) × List (Int × Int) :=
  (routeObjectsCreate routes source destination,
   flightObjectsCreate flights departure_time arrival_time)

/-- Python `str.isalpha`: nonempty and every character alphabetic; Python
strings are modelled as lists of characters (ASCII model). -/
def pyIsAlpha (s : List Char) : Bool :=
  !s.isEmpty && s.all (fun c => c.isAlpha)

/-- Python `str.isupper`: at least one cased character and no cased character
non-uppercase (ASCII model: cased = alphabetic). -/
def pyIsUpper (s : List Char) : Bool :=
  s.any (fun c => c.isAlpha) && s.all (fun c => !c.isAlpha || c.isUpper)

/-- Python `str.upper` (ASCII model). -/
def pyUpper (s : List Char) : List Char :=
  s.map Char.toUpper

/-- Embedding of `Airport.clean` (app/models.py lines 82-91): the code must be alphabetic
(checked first); a truthy, non-uppercase code is replaced by its uppercase
form; the country must be nonempty and found by the external
`pycountry.countries.get(name=...)`, modelled as membership in the reference
list `countries`. Returns the cleaned (code, country). -/
def airportClean (code : List Char) (country : String)
    (countries : List String) : Except String (List Char × String) :=
  if !pyIsAlpha code then
    .error "Code can only contain letters"
  else
    let code1 := if !code.isEmpty && !pyIsUpper code then pyUpper code else code
    if country = "" then
      .error "Country is required"
    else if !(countries.contains country) then
      .error "Country not found"
    else
      .ok (code1, country)

/-- Embedding of `Airport.save` (app/models.py lines 93-95): `self.clean()` then
`super().save(...)`, modelled as appending the cleaned record to the
store. -/
def airportSave (store : List (List Char × String)) (code : List Char)
    (country : String) (countries : List String) :
    Except String (List (List Char × String)) :=
  match airportClean code country countries with
  | .error e => .error e
  | .ok rec1 => .ok (store ++ [rec1])

/-- The request user as seen by the views: primary key and the staff flag. -/
structure DjUser where
  id : Nat
  is_staff : Bool
deriving Repr, DecidableEq

/-- An `Order` row: primary key and the primary key of the owning user
(app/models.py lines 158-170). -/
structure OrderRow where
  id : Nat
  user_id : Nat
deriving Repr, DecidableEq

/-- A `Ticket` row: foreign keys to flight and order plus the seat
coordinates (app/models.py lines 173-219). -/
structure TicketRow where
  flight_id : Nat
  order_id : Nat
  row : Int
  seat : Int
deriving Repr, DecidableEq

/-- Embedding of `OrderViewSet.get_queryset` (app/views.py lines 563-587): query
parameters are `Option Nat` (`none` = absent or empty string, which is falsy
in the source); `select_related` calls only change the fetching strategy and
are no-ops on the returned rows; the `tickets__flight__id` filter keeps the
orders having some ticket on the given flight. -/
def orderGetQueryset (orders : List OrderRow) (tickets : List TicketRow)
    (user : DjUser) (user_id order_id flight_id : Option Nat) :
    List OrderRow :=
  let queryset := orders
  let queryset :=
    if !user.is_staff then orders.filter (fun o => o.user_id == user.id)
    else queryset
  let queryset :=
    match order_id with
    | some oid => queryset.filter (fun o => o.id == oid)
    | none => queryset
  let queryset :=
    match flight_id with
    | some fid =>
        queryset.filter (fun o =>
          tickets.any (fun t => t.order_id == o.id && t.flight_id == fid))
    | none => queryset
  match user_id with
  | some uid =>
      if user.is_staff then queryset.filter (fun o => o.user_id == uid)
      else queryset
  | none => queryset

/-- A `Flight` row joined with its airplane (the `select_related` join of
`FlightViewSet.queryset` materialises the airplane columns). -/
structure FlightRow where
  id : Nat
  airplane : Airplane
deriving Repr, DecidableEq

/-- Embedding of `FlightViewSet.queryset` (app/views.py lines 387-399): every flight is
annotated with
`available_seats = F(airplane__rows) * F(airplane__seats_in_row) - Count(tickets)`,
i.e. the seat grid of the airplane minus the number of ticket rows whose flight
foreign key is this flight. -/
def flightQueryset (flights : List FlightRow) (tickets : List TicketRow) :
    List (FlightRow × Int) :=
  flights.map (fun f =>
    (f, f.airplane.rows * f.airplane.seats_in_row -
      ((tickets.filter (fun t => t.flight_id == f.id)).length : Int)))

/-- The serializer classes `OrderViewSet.get_serializer_class` can return
(app/views.py lines 26-44 and 548-561). -/
inductive OrderSerializerClass
  | orderListForStaff
  | orderDetailForStaff
  | orderList
  | orderDetail
  | order
deriving Repr, DecidableEq

/-- Embedding of `OrderViewSet.get_serializer_class` (app/views.py lines 548-561): the
source-order cascade of `if` tests on `self.action` and `user.is_staff`. -/
def orderGetSerializerClass (action : String) (user : DjUser) :
    OrderSerializerClass :=
  if action == "list" && user.is_staff then .orderListForStaff
  else if action == "retrieve" && user.is_staff then .orderDetailForStaff
  else if action == "list" then .orderList
  else if action == "retrieve" then .orderDetail
  else .order

/-- Modelled from the spec: the staff variants `OrderListForStaffSerializer`
and `OrderDetailForStaffSerializer` are imported by app/views.py (lines
26-44) but their definitions are missing from the sources; the spec says
staff "sees all orders with owner information", and the staff OpenAPI
example in app/views.py (lines 454-477) shows the extra "user" object on
each order, so the staff shapes carry the extra "user" field. The non-staff
shapes are from `OrderListSerializer`, `OrderDetailSerializer` and
`OrderSerializer` (app/serializers.py lines 408-477). -/
def serializerFields : OrderSerializerClass → List String
  | .orderListForStaff => ["id", "created_at", "tickets", "user"]
  | .orderDetailForStaff => ["id", "created_at", "tickets", "user"]
  | .orderList => ["id", "created_at", "tickets"]
  | .orderDetail => ["id", "created_at", "tickets"]
  | .order => ["id", "tickets", "created_at"]

/-- Mean Earth radius in kilometers, as used by the great-circle formula. -/
noncomputable def earthRadiusKm : ℝ := 6371.009

/-- Degrees to radians. -/
noncomputable def radians (d : ℝ) : ℝ := d * Real.pi / 180

/-- Great-circle distance in kilometers between two (lat, lon) pairs given
in degrees: Earth radius times the central angle
`arccos (sin p1 * sin p2 + cos p1 * cos p2 * cos (l1 - l2))`. This models
the external `geopy.distance.distance(...).km` call, which the spec
describes as the great-circle distance in kilometers. -/
noncomputable def greatCircleDistanceKm (lat1 lon1 lat2 lon2 : ℝ) : ℝ :=
  earthRadiusKm * Real.arccos
    (Real.sin (radians lat1) * Real.sin (radians lat2) +
     Real.cos (radians lat1) * Real.cos (radians lat2) *
       Real.cos (radians lon1 - radians lon2))

/-- Embedding of `Route.distance` (app/models.py lines 114-122): the distance between
(source.lat, source.lon) and (destination.lat, destination.lon) in km,
truncated by `int(...)`; the central angle lies in [0, pi] so the distance
is nonnegative and Python truncation coincides with the floor. -/
noncomputable def routeDistance (source destination : ℝ × ℝ) : ℤ :=
  ⌊greatCircleDistanceKm source.1 source.2 destination.1 destination.2⌋

/-- The attributes the reverse-foreign-key related manager of Django exposes
(external framework API: `add`, `create`, `set`, `remove`, `clear` plus the
queryset methods re-exported on managers); `delete` is marked queryset-only
by Django and is not among them. -/
inductive RelatedManagerAttr
  | add
  | create
  | set
  | remove
  | clear
  | all
  | filter
  | get
  | count
deriving Repr, DecidableEq

/-- Python attribute lookup on the related manager: `delete` resolves to no
attribute. -/
def relatedManagerLookup (attr : String) : Option RelatedManagerAttr :=
  if attr == "add" then some .add
  else if attr == "create" then some .create
  else if attr == "set" then some .set
  else if attr == "remove" then some .remove
  else if attr == "clear" then some .clear
  else if attr == "all" then some .all
  else if attr == "filter" then some .filter
  else if attr == "get" then some .get
  else if attr == "count" then some .count
  else none

/-- The persistent state touched by an order update: order rows and ticket
rows. -/
structure OrderStore where
  orders : List OrderRow
  tickets : List TicketRow
deriving Repr, DecidableEq

/-- A Python exception escaping the serializer. -/
inductive PyException
  | attributeError (message : String)
deriving Repr, DecidableEq

/-- One entry of the validated `tickets` input list of an order write:
(flight, row, seat), the fields of `TicketSerializer`. -/
structure TicketInput where
  flight_id : Nat
  row : Int
  seat : Int
deriving Repr, DecidableEq

/-- Embedding of `OrderSerializer.update` (app/serializers.py lines 433-446):
`tickets_data = validated_data.pop("tickets")` (the field is declared on the
serializer, so a validated input always carries it); `created_at` is
`auto_now_add` hence read-only, so `instance.save()` leaves the row as it
was; then, `tickets_data` not being `None`, the source evaluates
`instance.tickets.delete` -- an attribute lookup on the related manager,
which raises AttributeError since the manager has no such attribute. Only
with such an attribute would the old tickets be dropped and rows built from
`tickets_data` created in their place (that branch also skips the per-ticket
validation that `Ticket.save` would run; it is unreachable). -/
def orderSerializerUpdate (store : OrderStore) (instanceId : Nat)
    (tickets_data : List TicketInput) : Except PyException OrderStore :=
  match relatedManagerLookup "delete" with
  | none =>
      .error (.attributeError "RelatedManager object has no attribute delete")
  | some _ =>
      .ok { store with tickets :=
        store.tickets.filter (fun t => t.order_id != instanceId) ++
          tickets_data.map (fun d =>
            { flight_id := d.flight_id, order_id := instanceId,
              row := d.row, seat := d.seat }) }

/-- C1 -- For every ticket, persisting succeeds exactly when
1 ≤ row ≤ airplane.rows and 1 ≤ seat ≤ airplane.seats_in_row; an
out-of-range row (resp. seat) raises an error keyed by "row" (resp.
"seat"); concretely, row=0, seat=1 on a 5×4 airplane raises on field "row"
with the message from the spec. -/
theorem ticket_seat_range_validation (row seat : Int) (a : Airplane) :
    ((∃ p, ticketSave row seat a = .ok p) ↔
      (1 ≤ row ∧ row ≤ a.rows ∧ 1 ≤ seat ∧ seat ≤ a.seats_in_row)) ∧
    (¬ (1 ≤ row ∧ row ≤ a.rows) →
      ticketSave row seat a =
        .error ⟨"row", rangeErrorMessage "row" "rows" a.rows⟩) ∧
    ((1 ≤ row ∧ row ≤ a.rows) → ¬ (1 ≤ seat ∧ seat ≤ a.seats_in_row) →
      ticketSave row seat a =
        .error ⟨"seat", rangeErrorMessage "seat" "seats_in_row" a.seats_in_row⟩) ∧
    ticketSave 0 1 ⟨1, 5, 4⟩ =
      .error ⟨"row", "row number must be in available range: (1, rows): (1, 5)"⟩ := by
  refine ⟨?_, ?_, ?_, ?_⟩
  · constructor
    · rintro ⟨p, hp⟩
      unfold ticketSave validate_ticket at hp
      by_cases h1 : 1 ≤ row ∧ row ≤ a.rows
      · by_cases h2 : 1 ≤ seat ∧ seat ≤ a.seats_in_row
        · exact ⟨h1.1, h1.2, h2.1, h2.2⟩
        · simp [h1, h2] at hp
      · simp [h1] at hp
    · rintro ⟨h1, h2, h3, h4⟩
      refine ⟨(row, seat), ?_⟩
      unfold ticketSave validate_ticket
      simp [h1, h2, h3, h4]
  · intro h1
    unfold ticketSave validate_ticket
    simp [h1]
  · intro h1 h2
    unfold ticketSave validate_ticket
    simp [h1, h2]
  · rfl

/-- C1 witness -- the theorem applied at a concrete out-of-range row and a
concrete out-of-range seat. -/
theorem ticket_seat_range_validation_witness :
    ticketSave 0 1 ⟨1, 5, 4⟩ =
      .error ⟨"row", "row number must be in available range: (1, rows): (1, 5)"⟩ ∧
    ticketSave 2 9 ⟨1, 5, 4⟩ =
      .error ⟨"seat", "seat number must be in available range: (1, seats_in_row): (1, 4)"⟩ ∧
    ticketSave 2 3 ⟨1, 5, 4⟩ = .ok (2, 3) := by
  refine ⟨(ticket_seat_range_validation 0 1 ⟨1, 5, 4⟩).2.2.2, ?_, ?_⟩
  · have h := (ticket_seat_range_validation 2 9 ⟨1, 5, 4⟩).2.2.1
      (by constructor <;> decide) (by decide)
    simpa [rangeErrorMessage] using h
  · rfl

/-- C2 -- code bug: the claim says a creation violating the time orderings
yields a validation error and every accepted flight satisfies
arrival ≥ departure ≥ now, but the creation path `FlightSerializer.create`
never invokes `Flight.clean`: at now = 10, a flight with departure_time = 5
(before now) and arrival_time = 3 (before its departure) is inserted into
the store with no error, even though `Flight.clean` rejects exactly this
input, and the stored flight violates the claimed ordering. -/
theorem flight_creation_unvalidated :
    (5, 3) ∈ (flightSerializerCreate [] [] 1 2 5 3).2 ∧
    flightClean 10 5 3 = .error "Departure time cannot be in the past" ∧
    ¬ ((10 : Int) ≤ 5 ∧ (5 : Int) ≤ 3) :=
  ⟨by decide, rfl, by decide⟩

/-- C3 -- code bug: the claim says creating a route whose source equals its
destination fails with a validation error, but the creation path
(`Route.objects.create` inside `FlightSerializer.create`) never invokes
`Route.clean`: the self-loop route (1, 1) is inserted into the store with no
error, even though `Route.clean` rejects exactly this input. -/
theorem route_creation_unvalidated :
    (1, 1) ∈ (flightSerializerCreate [] [] 1 1 0 1).1 ∧
    routeClean 1 1 = .error "Source and destination cannot be the same" :=
  ⟨by decide, rfl⟩

/-- C4 -- for a non-staff user, every order in the list/retrieve queryset is
owned by that user, whatever the query parameters are. -/
theorem order_queryset_owner_filtering (orders : List OrderRow)
    (tickets : List TicketRow) (user : DjUser)
    (user_id order_id flight_id : Option Nat) (o : OrderRow)
    (hstaff : user.is_staff = false)
    (hmem : o ∈ orderGetQueryset orders tickets user user_id order_id flight_id) :
    o.user_id = user.id := by
  unfold orderGetQueryset at hmem
  rcases user_id with _ | uid <;> rcases order_id with _ | oid <;>
    rcases flight_id with _ | fid <;>
    simp_all [List.mem_filter]

/-- C4 witness -- the theorem applied to a concrete store holding orders of
two different users and a concrete non-staff request. -/
theorem order_queryset_owner_filtering_witness :
    (OrderRow.mk 1 1).user_id = (DjUser.mk 1 false).id :=
  order_queryset_owner_filtering [⟨1, 1⟩, ⟨2, 2⟩] [] ⟨1, false⟩
    none none none ⟨1, 1⟩ rfl (by decide)

/-- C5 -- every flight in the annotated queryset reports
available_seats = airplane.total_seats minus the number of tickets on that
flight. -/
theorem flight_available_seats_correct (flights : List FlightRow)
    (tickets : List TicketRow) (p : FlightRow × Int)
    (hp : p ∈ flightQueryset flights tickets) :
    p.2 = p.1.airplane.total_seats -
      ((tickets.filter (fun t => t.flight_id == p.1.id)).length : Int) := by
  unfold flightQueryset at hp
  rw [List.mem_map] at hp
  obtain ⟨f, hf, hfp⟩ := hp
  subst hfp
  simp [Airplane.total_seats]

/-- C5 witness -- the theorem applied to a concrete 5×4 airplane flight with
two of three tickets on it. -/
theorem flight_available_seats_correct_witness :
    (18 : Int) = (FlightRow.mk 1 ⟨1, 5, 4⟩).airplane.total_seats -
      ((([⟨1, 1, 1, 1⟩, ⟨1, 1, 2, 2⟩, ⟨2, 1, 3, 3⟩] : List TicketRow).filter
        (fun t => t.flight_id == (FlightRow.mk 1 ⟨1, 5, 4⟩).id)).length : Int) :=
  flight_available_seats_correct [⟨1, ⟨1, 5, 4⟩⟩]
    [⟨1, 1, 1, 1⟩, ⟨1, 1, 2, 2⟩, ⟨2, 1, 3, 3⟩] (⟨1, ⟨1, 5, 4⟩⟩, 18) (by decide)

/-- C6 -- for staff callers, list and retrieve select the staff serializer
variants, which carry the owner ("user") field; for non-staff callers they
select the variants without it. -/
theorem order_staff_serializer_selection (u : DjUser) :
    (u.is_staff = true →
      orderGetSerializerClass "list" u = .orderListForStaff ∧
      orderGetSerializerClass "retrieve" u = .orderDetailForStaff) ∧
    (u.is_staff = false →
      orderGetSerializerClass "list" u = .orderList ∧
      orderGetSerializerClass "retrieve" u = .orderDetail) ∧
    ("user" ∈ serializerFields .orderListForStaff ∧
      "user" ∈ serializerFields .orderDetailForStaff) ∧
    ("user" ∉ serializerFields .orderList ∧
      "user" ∉ serializerFields .orderDetail) := by
  obtain ⟨uid, flag⟩ := u
  refine ⟨?_, ?_, by decide, by decide⟩
  · intro h
    simp only at h
    subst h
    exact ⟨rfl, rfl⟩
  · intro h
    simp only at h
    subst h
    exact ⟨rfl, rfl⟩

/-- C6 witness -- the theorem applied to a concrete staff user and a
concrete non-staff user. -/
theorem order_staff_serializer_selection_witness :
    (orderGetSerializerClass "list" ⟨1, true⟩ = .orderListForStaff ∧
      orderGetSerializerClass "retrieve" ⟨1, true⟩ = .orderDetailForStaff) ∧
    (orderGetSerializerClass "list" ⟨2, false⟩ = .orderList ∧
      orderGetSerializerClass "retrieve" ⟨2, false⟩ = .orderDetail) :=
  ⟨(order_staff_serializer_selection ⟨1, true⟩).1 rfl,
   (order_staff_serializer_selection ⟨2, false⟩).2.1 rfl⟩

/-- A basic-latin uppercase character is a fixed point of `Char.toUpper`. -/
theorem char_toUpper_of_isUpper (c : Char) (h : c.isUpper = true) :
    c.toUpper = c := by
  simp [Char.isUpper] at h
  obtain ⟨h1, h2⟩ := h
  unfold Char.toUpper
  rw [if_neg]
  rintro ⟨h3, h4⟩
  have h5 : c.toNat ≤ 90 := by
    have := UInt32.toNat_le_of_le (n := c.val) (m := 90) (by decide) h2
    simpa [Char.toNat] using this
  omega

/-- An all-alphabetic, all-uppercase character list is a fixed point of
`pyUpper`. -/
theorem pyUpper_of_upper (s : List Char)
    (halpha : s.all (fun c => c.isAlpha) = true)
    (hupper : s.all (fun c => !c.isAlpha || c.isUpper) = true) :
    pyUpper s = s := by
  unfold pyUpper
  induction s with
  | nil => rfl
  | cons c cs ih =>
    simp only [List.all_cons, Bool.and_eq_true] at halpha hupper
    have hcu : c.isUpper = true := by
      rcases Bool.or_eq_true_iff.mp hupper.1 with h | h
      · simp [halpha.1] at h
      · exact h
    simp [char_toUpper_of_isUpper c hcu, ih halpha.2 hupper.2]

/-- The code kept by `Airport.clean` for an alphabetic input equals its
uppercase form, whether or not the branch normalizing it fires. -/
theorem normalized_code_eq_pyUpper (code : List Char)
    (h : pyIsAlpha code = true) :
    (if ¬code = [] ∧ pyIsUpper code = false then pyUpper code else code) =
      pyUpper code := by
  unfold pyIsAlpha at h
  rw [Bool.and_eq_true] at h
  by_cases hcond : ¬code = [] ∧ pyIsUpper code = false
  · rw [if_pos hcond]
  · rw [if_neg hcond]
    rw [not_and_or] at hcond
    rcases hcond with hc | hc
    · rw [not_not] at hc
      subst hc
      simp [List.isEmpty] at h
    · have hup : pyIsUpper code = true := by
        cases hb : pyIsUpper code
        · exact absurd hb hc
        · rfl
      unfold pyIsUpper at hup
      rw [Bool.and_eq_true] at hup
      exact (pyUpper_of_upper code h.2 hup.2).symm

/-- C7 -- every airport accepted into the store has an alphabetic code,
stored upper-cased whatever the input case, and a known country; a
non-alphabetic code is rejected before any normalization, and an unknown
country is rejected. -/
theorem airport_code_normalization (store : List (List Char × String))
    (code : List Char) (country : String) (countries : List String) :
    (∀ st, airportSave store code country countries = .ok st →
      pyIsAlpha code = true ∧ countries.contains country = true ∧
      st = store ++ [(pyUpper code, country)]) ∧
    (pyIsAlpha code = false →
      airportSave store code country countries =
        .error "Code can only contain letters") ∧
    (countries.contains country = false →
      ∀ st, airportSave store code country countries ≠ .ok st) := by
  refine ⟨?_, ?_, ?_⟩
  · intro st hst
    unfold airportSave airportClean at hst
    by_cases halpha : pyIsAlpha code = true
    · rw [halpha] at hst
      by_cases hc1 : country = ""
      · simp [hc1] at hst
      · by_cases hc2 : countries.contains country = true
        · have hmem : country ∈ countries := by simpa using hc2
          simp [hc1, hmem] at hst
          refine ⟨halpha, hc2, ?_⟩
          rw [← hst, normalized_code_eq_pyUpper code halpha]
        · rw [Bool.not_eq_true] at hc2
          have hmem : country ∉ countries := by simpa using hc2
          simp [hc1, hmem] at hst
    · rw [Bool.not_eq_true] at halpha
      simp [halpha] at hst
  · intro h
    unfold airportSave airportClean
    simp [h]
  · intro h st hst
    unfold airportSave airportClean at hst
    by_cases halpha : pyIsAlpha code = true
    · rw [halpha] at hst
      by_cases hc1 : country = ""
      · simp [hc1] at hst
      · have hmem : country ∉ countries := by simpa using h
        simp [hc1, hmem] at hst
    · rw [Bool.not_eq_true] at halpha
      simp [halpha] at hst

/-- C7 witness -- the theorem applied to a concrete mixed-case code (stored
uppercase) and to a concrete non-alphabetic code (rejected). -/
theorem airport_code_normalization_witness :
    (pyIsAlpha ['j', 'F', 'k'] = true ∧
      (["Norway"] : List String).contains "Norway" = true ∧
      [(['J', 'F', 'K'], "Norway")] =
        ([] : List (List Char × String)) ++ [(pyUpper ['j', 'F', 'k'], "Norway")]) ∧
    airportSave [] ['1', 'A'] "Norway" ["Norway"] =
      .error "Code can only contain letters" :=
  ⟨(airport_code_normalization [] ['j', 'F', 'k'] "Norway" ["Norway"]).1
      [(['J', 'F', 'K'], "Norway")] rfl,
   (airport_code_normalization [] ['1', 'A'] "Norway" ["Norway"]).2.1 rfl⟩

/-- C8 -- the route distance is symmetric: for any two coordinate pairs the
distance A→B equals the distance B→A. -/
theorem route_distance_symmetric (a b : ℝ × ℝ) :
    routeDistance a b = routeDistance b a := by
  unfold routeDistance greatCircleDistanceKm
  congr 2
  have hc : Real.cos (radians a.2 - radians b.2) =
      Real.cos (radians b.2 - radians a.2) := by
    rw [← neg_sub (radians b.2) (radians a.2), Real.cos_neg]
  rw [hc]
  ring_nf

/-- C9 -- updating an order through `OrderSerializer.update` always raises:
the related-manager collection of tickets has no delete attribute, so the
lookup fails before any ticket row is touched and the ticket set is never
replaced. -/
theorem order_update_always_raises (store : OrderStore) (instanceId : Nat)
    (tickets_data : List TicketInput) :
    orderSerializerUpdate store instanceId tickets_data =
      .error (.attributeError "RelatedManager object has no attribute delete") :=
  rfl

/-- C10 -- the third error branch of `Flight.clean` ("Arrival time cannot be
in the past") is unreachable against a single fixed now: no input makes
`clean` return it, and whenever the first two checks pass the arrival is not
in the past and `clean` succeeds. -/
theorem flight_arrival_past_branch_unreachable (now dep arr : Int) :
    (∀ e, flightClean now dep arr = .error e →
      e ≠ "Arrival time cannot be in the past") ∧
    (¬ dep < now → ¬ arr < dep →
      ¬ arr < now ∧ flightClean now dep arr = .ok ()) := by
  unfold flightClean
  constructor
  · intro e he
    by_cases h1 : dep < now
    · simp [h1] at he
      rw [← he]
      decide
    · by_cases h2 : arr < dep
      · simp [h1, h2] at he
        rw [← he]
        decide
      · by_cases h3 : arr < now
        · omega
        · simp [h1, h2, h3] at he
  · intro h1 h2
    have h3 : ¬ arr < now := by omega
    exact ⟨h3, by simp [h1, h2, h3]⟩

/-- C10 witness -- the theorem applied at a concrete flight passing the
first two checks. -/
theorem flight_arrival_past_branch_unreachable_witness :
    ¬ (5 : Int) < 0 ∧ flightClean 0 3 5 = .ok () :=
  (flight_arrival_past_branch_unreachable 0 3 5).2 (by decide) (by decide)
